import Mathlib

/-!
Verification of the WorkShift.AI automation-risk scoring core
(`scripts/automation_risk_analyzer.py`, class `AutomationRiskAnalyzer`).

Scores are modelled as exact rationals (ℚ): every constant in the source
tables is a short decimal fraction, and all operations performed on them
(addition, multiplication, min/max clamping, threshold comparisons) are
exact for these values, so the rational model coincides with the Python
float computation for every quantity settled below.

Strings are modelled as Lean `String`; Python's `str.lower` is modelled by
mapping `Char.toLower` over the characters (the keyword table is pure
ASCII), and Python's substring test `needle in hay` by an explicit
prefix-at-each-suffix scan.
-/

namespace WorkShiftAI

/-- A role's risk profile: the six factor attributes plus `base_risk`,
in the key order of the Python dict literal
(`routine_tasks`, `data_processing`, `human_interaction`,
`creative_problem_solving`, `technical_complexity`, `physical_presence`,
`base_risk`). -/
structure RoleProfile where
  routine_tasks : ℚ
  data_processing : ℚ
  human_interaction : ℚ
  creative_problem_solving : ℚ
  technical_complexity : ℚ
  physical_presence : ℚ
  base_risk : ℚ
deriving DecidableEq, Repr

/-- `self.risk_factors`: the signed factor weights, in dict insertion
order (Python 3.7+ dicts iterate in insertion order). -/
def risk_factors : List (String × ℚ) :=
  [("routine_tasks", 0.30),
   ("data_processing", 0.20),
   ("human_interaction", -0.25),
   ("creative_problem_solving", -0.30),
   ("technical_complexity", -0.15),
   ("physical_presence", -0.10)]

/-- Dictionary-style access `profile[factor]` on a profile: the Python
profile dict holds the six factor keys plus `base_risk`; any other key is
absent (`factor in profile` is false). -/
def RoleProfile.attr? (p : RoleProfile) (name : String) : Option ℚ :=
  if name = "routine_tasks" then some p.routine_tasks
  else if name = "data_processing" then some p.data_processing
  else if name = "human_interaction" then some p.human_interaction
  else if name = "creative_problem_solving" then some p.creative_problem_solving
  else if name = "technical_complexity" then some p.technical_complexity
  else if name = "physical_presence" then some p.physical_presence
  else if name = "base_risk" then some p.base_risk
  else none

/-- The factor loop of `calculate_automation_risk` (lines 170-175):
start from `profile['base_risk']` and, for each `(factor, weight)` in
`risk_factors`, if the factor is a key of the profile, add
`weight * (profile[factor] - 0.5)`. -/
def applyFactors (p : RoleProfile) : ℚ :=
  risk_factors.foldl
    (fun acc fw =>
      match p.attr? fw.1 with
      | some v => acc + fw.2 * (v - 0.5)
      | none => acc)
    p.base_risk

/-- `max(0, min(1, risk_score))` (line 177). -/
def clamp01 (x : ℚ) : ℚ := max 0 (min 1 x)

/-- `self.role_risk_profiles` (lines 56-127), in dict insertion order;
each profile's fields are listed in the dict's key order
(routine_tasks, data_processing, human_interaction,
creative_problem_solving, technical_complexity, physical_presence,
base_risk). -/
def role_risk_profiles : List (String × RoleProfile) :=
  [("Data Entry", ⟨0.95, 0.90, 0.10, 0.05, 0.20, 0.05, 0.85⟩),
   ("QA Tester", ⟨0.70, 0.60, 0.30, 0.30, 0.40, 0.10, 0.65⟩),
   ("Data Analyst", ⟨0.60, 0.85, 0.40, 0.50, 0.60, 0.05, 0.55⟩),
   ("Frontend Developer", ⟨0.50, 0.40, 0.50, 0.70, 0.70, 0.05, 0.35⟩),
   ("Backend Developer", ⟨0.55, 0.60, 0.35, 0.65, 0.80, 0.05, 0.40⟩),
   ("Full Stack Developer", ⟨0.45, 0.50, 0.45, 0.75, 0.85, 0.05, 0.30⟩),
   ("DevOps Engineer", ⟨0.65, 0.55, 0.40, 0.60, 0.90, 0.10, 0.45⟩),
   ("Machine Learning Engineer", ⟨0.40, 0.80, 0.35, 0.85, 0.95, 0.05, 0.25⟩),
   ("Data Scientist", ⟨0.35, 0.85, 0.45, 0.90, 0.90, 0.05, 0.20⟩),
   ("Software Engineer", ⟨0.40, 0.50, 0.50, 0.80, 0.85, 0.05, 0.25⟩),
   ("Cloud Engineer", ⟨0.55, 0.50, 0.35, 0.65, 0.85, 0.05, 0.40⟩),
   ("Security Engineer", ⟨0.45, 0.60, 0.40, 0.80, 0.90, 0.10, 0.30⟩),
   ("Product Manager", ⟨0.30, 0.40, 0.90, 0.85, 0.50, 0.40, 0.15⟩),
   ("Engineering Manager", ⟨0.25, 0.30, 0.95, 0.80, 0.60, 0.50, 0.10⟩)]

/-- Python dict lookup `table[role]` / membership `role in table`,
modelled on the association list: first pair whose key equals `role`. -/
def findProfile (role : String) : List (String × RoleProfile) → Option RoleProfile
  | [] => none
  | kp :: t => if role = kp.1 then some kp.2 else findProfile role t

/-- `calculate_automation_risk` (lines 164-177) generalized over the
profile table: unknown roles return 0.5, known roles get the clamped
weighted sum. -/
def calculate_automation_risk_in (table : List (String × RoleProfile)) (role : String) : ℚ :=
  match findProfile role table with
  | none => 0.5
  | some profile => clamp01 (applyFactors profile)

/-- `AutomationRiskAnalyzer.calculate_automation_risk`, over the static
`role_risk_profiles` table. -/
def calculate_automation_risk (role : String) : ℚ :=
  calculate_automation_risk_in role_risk_profiles role

/-- `AutomationRiskAnalyzer.get_risk_level` (lines 179-185): the
first-match-wins comparison chain. -/
def get_risk_level (score : ℚ) : String :=
  if score ≥ 0.7 then "Very High"
  else if score ≥ 0.5 then "High"
  else if score ≥ 0.3 then "Medium"
  else if score ≥ 0.15 then "Low"
  else "Very Low"

/-- Python `str.lower()` restricted to ASCII (every keyword in the
title→role table is ASCII). -/
def str_lower (s : String) : String := String.mk (s.data.map Char.toLower)

/-- Python substring test `needle in hay` on character lists: the needle
is a prefix of some suffix of the haystack. -/
def sub_in_chars (needle : List Char) : List Char → Bool
  | [] => needle.isEmpty
  | c :: t => needle.isPrefixOf (c :: t) || sub_in_chars needle t

/-- Python `needle in hay` on strings. -/
def str_in (needle hay : String) : Bool := sub_in_chars needle.data hay.data

/-- The `mappings` dict of `map_to_risk_category` (lines 144-157), in
insertion order. -/
def mappings : List (String × String) :=
  [("data scientist", "Data Scientist"),
   ("machine learning", "Machine Learning Engineer"),
   ("product manager", "Product Manager"),
   ("devops", "DevOps Engineer"),
   ("frontend", "Frontend Developer"),
   ("backend", "Backend Developer"),
   ("full stack", "Full Stack Developer"),
   ("software engineer", "Software Engineer"),
   ("software developer", "Software Engineer"),
   ("cloud engineer", "Cloud Engineer"),
   ("security engineer", "Security Engineer"),
   ("data analyst", "Data Analyst")]

/-- The `for keyword, category in mappings.items()` loop (lines 159-161):
first rule whose keyword occurs in the lowercased title. -/
def first_match (title_lower : String) : List (String × String) → Option String
  | [] => none
  | kc :: t => if str_in kc.1 title_lower then some kc.2 else first_match title_lower t

/-- `AutomationRiskAnalyzer.map_to_risk_category` (lines 140-162). -/
def map_to_risk_category (job_title : String) : String :=
  match first_match (str_lower job_title) mappings with
  | some category => category
  | none => "Software Engineer"

/-- One row of the aggregate report of `analyze_risk_by_role`
(lines 193-203), restricted to the columns the sort and the claims
touch. -/
structure RiskRecord where
  role : String
  score : ℚ
  level : String
deriving DecidableEq, Repr

/-- The `risk_data` list built by `analyze_risk_by_role` (lines 193-203),
one record per table entry in table order. -/
def risk_data : List RiskRecord :=
  role_risk_profiles.map
    (fun rp => ⟨rp.1, calculate_automation_risk rp.1,
                get_risk_level (calculate_automation_risk rp.1)⟩)

/-- Stable ascending insertion by score: an earlier element settles
before any later element of equal score. -/
def insert_asc (x : RiskRecord) : List RiskRecord → List RiskRecord
  | [] => [x]
  | y :: ys => if x.score ≤ y.score then x :: y :: ys else y :: insert_asc x ys

/-- Stable ascending insertion sort by score. -/
def sort_asc : List RiskRecord → List RiskRecord
  | [] => []
  | x :: xs => insert_asc x (sort_asc xs)

/-- `pd.DataFrame(risk_data).sort_values('Risk Score', ascending=False)`
(line 205). pandas `nargsort` handles `ascending=False` by reversing the
key column and the index array, taking a stable ascending argsort of the
reversed column (numpy's introsort runs plain insertion sort for arrays
shorter than its cutoff of 15, and this table has 14 rows, so that
argsort is stable here), and reversing the resulting indexer again —
the double reversal makes the descending sort stable, so rows with
equal keys keep their input order. -/
def analyze_risk_by_role : List RiskRecord := (sort_asc risk_data.reverse).reverse

/-- Index of the first occurrence of `role` in a key list (length of the
list when absent). -/
def keyIndexAux (role : String) : List String → ℕ
  | [] => 0
  | k :: t => if k = role then 0 else keyIndexAux role t + 1

/-- Position of a role label in the static table (input order of the
aggregate report). -/
def tableIndex (role : String) : ℕ :=
  keyIndexAux role (role_risk_profiles.map Prod.fst)

/-- The tie-break the spec asserts for the aggregate report: any two
records of equal score appear in table order. -/
abbrev ties_preserve_table_order (out : List RiskRecord) : Prop :=
  List.Pairwise (fun a b => a.score = b.score → tableIndex a.role < tableIndex b.role) out

/-! ## Helper lemmas -/

theorem clamp01_nonneg (x : ℚ) : 0 ≤ clamp01 x := le_max_left 0 _

theorem clamp01_le_one (x : ℚ) : clamp01 x ≤ 1 :=
  max_le (by norm_num) (min_le_left 1 x)

theorem findProfile_eq_none_of_not_mem {role : String} :
    ∀ {l : List (String × RoleProfile)}, role ∉ l.map Prod.fst → findProfile role l = none := by
  intro l
  induction l with
  | nil => intro _; rfl
  | cons kp t ih =>
      intro h
      simp only [List.map_cons, List.mem_cons, not_or] at h
      simp [findProfile, h.1, ih h.2]

theorem first_match_eq_find (t : String) :
    ∀ l : List (String × String),
      first_match t l = (l.find? (fun kc => str_in kc.1 t)).map Prod.snd := by
  intro l
  induction l with
  | nil => rfl
  | cons kc rest ih =>
      by_cases h : str_in kc.1 t
      · simp [first_match, List.find?_cons_of_pos _ h, h]
      · simp only [Bool.not_eq_true] at h
        simp [first_match, List.find?_cons_of_neg, h, ih]

theorem first_match_mem {t c : String} :
    ∀ {l : List (String × String)}, first_match t l = some c → c ∈ l.map Prod.snd := by
  intro l
  induction l with
  | nil => intro h; simp [first_match] at h
  | cons kc rest ih =>
      intro h
      simp only [first_match] at h
      by_cases hk : str_in kc.1 t
      · simp only [hk, if_pos] at h
        injection h with h
        simp [h]
      · simp only [Bool.not_eq_true] at hk
        simp only [hk, Bool.false_eq_true, if_false] at h
        simp [ih h]

/-- The fully evaluated aggregate report (descending by score; the tie at
score 0 keeps table order). -/
def reportList : List RiskRecord :=
  [⟨"Data Entry", 1, "Very High"⟩,
   ⟨"QA Tester", 179/200, "Very High"⟩,
   ⟨"Data Analyst", 141/200, "Very High"⟩,
   ⟨"DevOps Engineer", 12/25, "Medium"⟩,
   ⟨"Backend Developer", 171/400, "Medium"⟩,
   ⟨"Cloud Engineer", 2/5, "Medium"⟩,
   ⟨"Frontend Developer", 57/200, "Low"⟩,
   ⟨"Security Engineer", 11/50, "Low"⟩,
   ⟨"Full Stack Developer", 43/200, "Low"⟩,
   ⟨"Machine Learning Engineer", 19/100, "Low"⟩,
   ⟨"Software Engineer", 49/400, "Very Low"⟩,
   ⟨"Data Scientist", 41/400, "Very Low"⟩,
   ⟨"Product Manager", 0, "Very Low"⟩,
   ⟨"Engineering Manager", 0, "Very Low"⟩]

set_option maxHeartbeats 2000000 in
theorem report_eval : analyze_risk_by_role = reportList := by
  simp only [analyze_risk_by_role, risk_data, role_risk_profiles,
    calculate_automation_risk, calculate_automation_risk_in, findProfile,
    applyFactors, risk_factors, RoleProfile.attr?, sort_asc, insert_asc,
    List.map_cons, List.map_nil, List.foldl_cons, List.foldl_nil, reportList]
  simp
  norm_num [clamp01, get_risk_level, sort_asc, insert_asc]

theorem calc_of_none {role : String}
    (h : findProfile role role_risk_profiles = none) :
    calculate_automation_risk role = 0.5 := by
  unfold calculate_automation_risk calculate_automation_risk_in
  rw [h]

theorem calc_of_some (role : String) (p : RoleProfile)
    (h : findProfile role role_risk_profiles = some p) :
    calculate_automation_risk role = clamp01 (applyFactors p) := by
  unfold calculate_automation_risk calculate_automation_risk_in
  rw [h]

/-! ## Claim theorems -/

/-- C1: for every role label the score of `calculate_automation_risk` lies
in [0, 1]; an unknown label yields 0.5 and a known label yields the
weighted sum clamped to [0, 1] as the final step. -/
theorem C1_score_range :
    ∀ role : String,
      0 ≤ calculate_automation_risk role ∧ calculate_automation_risk role ≤ 1 ∧
      (findProfile role role_risk_profiles = none → calculate_automation_risk role = 0.5) ∧
      (∀ p, findProfile role role_risk_profiles = some p →
        calculate_automation_risk role = clamp01 (applyFactors p)) := by
  intro role
  rcases hfp : findProfile role role_risk_profiles with _ | p
  · rw [calc_of_none hfp]
    exact ⟨by norm_num, by norm_num, fun _ => rfl, fun p hp => Option.noConfusion hp⟩
  · rw [calc_of_some role p hfp]
    refine ⟨clamp01_nonneg _, clamp01_le_one _, fun hn => Option.noConfusion hn,
      fun q hq => ?_⟩
    injection hq with hq
    rw [hq]

/-- C1 witness: the range bounds, the unknown-role branch and the
known-role branch, each exercised at a concrete label. -/
theorem C1_score_range_witness :
    0 ≤ calculate_automation_risk "Data Scientist" ∧
    calculate_automation_risk "Data Scientist" ≤ 1 ∧
    calculate_automation_risk "Nonexistent Role Xyz" = 0.5 ∧
    calculate_automation_risk "Data Scientist" =
      clamp01 (applyFactors ⟨0.35, 0.85, 0.45, 0.90, 0.90, 0.05, 0.20⟩) :=
  ⟨(C1_score_range "Data Scientist").1,
   (C1_score_range "Data Scientist").2.1,
   (C1_score_range "Nonexistent Role Xyz").2.2.1 rfl,
   (C1_score_range "Data Scientist").2.2.2 _ rfl⟩

/-- C2: with the literal Data Scientist profile and the literal weight
table, the score is exactly 0.1025 (so in particular within any 1e-9
tolerance) and its risk level is Very Low. -/
theorem C2_data_scientist_score :
    calculate_automation_risk "Data Scientist" = 0.1025 ∧
    get_risk_level (calculate_automation_risk "Data Scientist") = "Very Low" := by
  have h : calculate_automation_risk "Data Scientist" = 0.1025 := by
    simp only [calculate_automation_risk, calculate_automation_risk_in, findProfile,
      role_risk_profiles, applyFactors, risk_factors, RoleProfile.attr?,
      List.foldl_cons, List.foldl_nil]
    simp
    norm_num [clamp01]
  refine ⟨h, ?_⟩
  rw [h]
  norm_num [get_risk_level]

/-- C3: a role label absent from the profile table maps to exactly 0.5
(the computation is total, so nothing is raised), and in particular
the label Nonexistent Role Xyz scores 0.5. -/
theorem C3_unknown_role_default :
    (∀ role : String, role ∉ role_risk_profiles.map Prod.fst →
      calculate_automation_risk role = 0.5) ∧
    calculate_automation_risk "Nonexistent Role Xyz" = 0.5 := by
  constructor
  · intro role h
    exact calc_of_none (findProfile_eq_none_of_not_mem h)
  · exact calc_of_none rfl

/-- C3 witness: the fallback applied at a concrete label that is not a
table key. -/
theorem C3_unknown_role_default_witness :
    "Another Unknown Role" ∉ role_risk_profiles.map Prod.fst ∧
    calculate_automation_risk "Another Unknown Role" = 0.5 :=
  ⟨by simp [role_risk_profiles],
   C3_unknown_role_default.1 "Another Unknown Role" (by simp [role_risk_profiles])⟩

/-- C4: the risk-level bands of the first-match-wins comparison chain are
inclusive on their lower bounds, together with the spec's seven boundary
evaluations. -/
theorem C4_level_boundaries :
    (∀ s : ℚ,
      (s ≥ 0.7 → get_risk_level s = "Very High") ∧
      (s ≥ 0.5 → s < 0.7 → get_risk_level s = "High") ∧
      (s ≥ 0.3 → s < 0.5 → get_risk_level s = "Medium") ∧
      (s ≥ 0.15 → s < 0.3 → get_risk_level s = "Low") ∧
      (s < 0.15 → get_risk_level s = "Very Low")) ∧
    get_risk_level 0.7 = "Very High" ∧ get_risk_level 0.6999 = "High" ∧
    get_risk_level 0.5 = "High" ∧ get_risk_level 0.4999 = "Medium" ∧
    get_risk_level 0.3 = "Medium" ∧ get_risk_level 0.15 = "Low" ∧
    get_risk_level 0 = "Very Low" := by
  constructor
  · intro s
    refine ⟨?_, ?_, ?_, ?_, ?_⟩ <;> intros <;> unfold get_risk_level <;> split_ifs <;>
      first | rfl | (exfalso; linarith)
  · refine ⟨?_, ?_, ?_, ?_, ?_, ?_, ?_⟩ <;> norm_num [get_risk_level]

/-- C4 witness: one interior point of each band, classified through the
band characterization. -/
theorem C4_level_boundaries_witness :
    get_risk_level 0.8 = "Very High" ∧ get_risk_level 0.55 = "High" ∧
    get_risk_level 0.35 = "Medium" ∧ get_risk_level 0.2 = "Low" ∧
    get_risk_level 0.1 = "Very Low" :=
  ⟨(C4_level_boundaries.1 0.8).1 (by norm_num),
   (C4_level_boundaries.1 0.55).2.1 (by norm_num) (by norm_num),
   (C4_level_boundaries.1 0.35).2.2.1 (by norm_num) (by norm_num),
   (C4_level_boundaries.1 0.2).2.2.2.1 (by norm_num) (by norm_num),
   (C4_level_boundaries.1 0.1).2.2.2.2 (by norm_num)⟩

/-- C5 counterexample: the comparison chain sends a negative score to
Very Low (not Very High as claimed) and a score above 1 to Very High
(not Very Low as claimed). -/
theorem C5_out_of_range_cex :
    get_risk_level (-1) = "Very Low" ∧ get_risk_level (-1) ≠ "Very High" ∧
    get_risk_level 2 = "Very High" ∧ get_risk_level 2 ≠ "Very Low" := by
  have h1 : get_risk_level (-1) = "Very Low" := by norm_num [get_risk_level]
  have h2 : get_risk_level 2 = "Very High" := by norm_num [get_risk_level]
  refine ⟨h1, ?_, h2, ?_⟩ <;> simp [h1, h2]

/-- C5 amended: `get_risk_level` is total — every score produces one of
the five levels — and by the same comparison chain negative inputs fall
into Very Low while inputs greater than 1 fall into Very High. -/
theorem C5_total_out_of_range :
    ∀ s : ℚ,
      (get_risk_level s = "Very High" ∨ get_risk_level s = "High" ∨
       get_risk_level s = "Medium" ∨ get_risk_level s = "Low" ∨
       get_risk_level s = "Very Low") ∧
      (s < 0 → get_risk_level s = "Very Low") ∧
      (1 < s → get_risk_level s = "Very High") := by
  intro s
  unfold get_risk_level
  split_ifs <;>
    refine ⟨by simp, fun h => ?_, fun h => ?_⟩ <;> first | rfl | (exfalso; linarith)

/-- C5 witness: the out-of-range clauses applied at concrete scores. -/
theorem C5_total_out_of_range_witness :
    get_risk_level (-2) = "Very Low" ∧ get_risk_level (3/2) = "Very High" :=
  ⟨(C5_total_out_of_range (-2)).2.1 (by norm_num),
   (C5_total_out_of_range (3/2)).2.2 (by norm_num)⟩

/-- C6: scoring a synthetic profile whose six weighted attributes all
equal 0.5 returns its base risk (clamped to [0, 1]): every recentered
factor contribution cancels. Stated on the known-role branch of
`calculate_automation_risk` with the synthetic profile installed as the
table entry for its label. -/
theorem C6_neutral_profile :
    ∀ (b : ℚ) (name : String),
      calculate_automation_risk_in [(name, ⟨0.5, 0.5, 0.5, 0.5, 0.5, 0.5, b⟩)] name
        = clamp01 b ∧
      (0 ≤ b → b ≤ 1 →
        calculate_automation_risk_in [(name, ⟨0.5, 0.5, 0.5, 0.5, 0.5, 0.5, b⟩)] name
          = b) := by
  intro b name
  have h : calculate_automation_risk_in [(name, ⟨0.5, 0.5, 0.5, 0.5, 0.5, 0.5, b⟩)] name
      = clamp01 b := by
    simp only [calculate_automation_risk_in, findProfile, applyFactors, risk_factors,
      RoleProfile.attr?, List.foldl_cons, List.foldl_nil]
    simp
  refine ⟨h, fun h0 h1 => ?_⟩
  rw [h]
  unfold clamp01
  rw [min_eq_right h1, max_eq_right h0]

/-- C6 witness: a concrete neutral profile with base risk 0.3 scores
exactly 0.3. -/
theorem C6_neutral_profile_witness :
    calculate_automation_risk_in
      [("Synthetic Role", ⟨0.5, 0.5, 0.5, 0.5, 0.5, 0.5, 0.3⟩)] "Synthetic Role" = 0.3 :=
  (C6_neutral_profile 0.3 "Synthetic Role").2 (by norm_num) (by norm_num)

/-- C7: the aggregate report is non-increasing in score across
consecutive records, and records of equal score keep table order — the
stable-sort tie rule holds because pandas makes the descending sort
stable (key column and indices reversed before the stable ascending
argsort, indexer reversed after); the single real tie, Product Manager
and Engineering Manager both clamped to score 0, comes out in table
order. -/
theorem C7_sorted_stable :
    List.Chain' (fun a b : RiskRecord => b.score ≤ a.score) analyze_risk_by_role ∧
    ties_preserve_table_order analyze_risk_by_role := by
  constructor
  · rw [report_eval]
    norm_num [reportList, List.chain'_cons, List.chain'_singleton]
  · rw [report_eval]
    simp only [ties_preserve_table_order, reportList, List.pairwise_cons, List.mem_cons,
      List.not_mem_nil, tableIndex, keyIndexAux, role_risk_profiles, List.map_cons,
      List.map_nil]
    simp
    norm_num

/-- C8: title normalization lowercases the title, scans the rule list
top to bottom for the first keyword contained in the lowercased title
and returns its role, falling back to Software Engineer — i.e. it equals
the first-match characterization on every title (hence is deterministic
and total), with concrete witnesses for a case-insensitive match, the
default, and rule order deciding a double match. -/
theorem C8_title_mapping :
    (∀ title : String,
      map_to_risk_category title =
        ((mappings.find? (fun kc => str_in kc.1 (str_lower title))).map Prod.snd).getD
          "Software Engineer") ∧
    map_to_risk_category "Senior DATA Scientist" = "Data Scientist" ∧
    map_to_risk_category "Underwater Basket Weaver" = "Software Engineer" ∧
    map_to_risk_category "machine learning data scientist" = "Data Scientist" := by
  refine ⟨fun title => ?_, rfl, rfl, rfl⟩
  unfold map_to_risk_category
  rw [first_match_eq_find]
  cases h : (mappings.find? fun kc => str_in kc.1 (str_lower title)).map Prod.snd <;> rfl

/-- C9: the shipped Data Entry profile drives the pre-clamp weighted sum
to 1.39 > 1, so its score is clamped to exactly 1 — the upper clamp is
exercised by the static tables. -/
theorem C9_data_entry_clamp :
    findProfile "Data Entry" role_risk_profiles
        = some ⟨0.95, 0.90, 0.10, 0.05, 0.20, 0.05, 0.85⟩ ∧
    applyFactors ⟨0.95, 0.90, 0.10, 0.05, 0.20, 0.05, 0.85⟩ = 1.39 ∧
    (1 : ℚ) < applyFactors ⟨0.95, 0.90, 0.10, 0.05, 0.20, 0.05, 0.85⟩ ∧
    calculate_automation_risk "Data Entry" = 1 := by
  have hf : applyFactors ⟨0.95, 0.90, 0.10, 0.05, 0.20, 0.05, 0.85⟩ = 1.39 := by
    simp only [applyFactors, risk_factors, RoleProfile.attr?, List.foldl_cons,
      List.foldl_nil]
    simp
    norm_num
  refine ⟨rfl, hf, ?_, ?_⟩
  · rw [hf]
    norm_num
  · rw [calc_of_some "Data Entry" ⟨0.95, 0.90, 0.10, 0.05, 0.20, 0.05, 0.85⟩ rfl, hf]
    norm_num [clamp01]

/-- C10: every output of title normalization (the default included) is a
key of the profile table, so scoring a normalized title always takes the
known-role branch, never the 0.5 fallback. -/
theorem C10_normalized_roles_known :
    ∀ title : String, ∃ p,
      findProfile (map_to_risk_category title) role_risk_profiles = some p ∧
      calculate_automation_risk (map_to_risk_category title) = clamp01 (applyFactors p) := by
  intro title
  rcases h : first_match (str_lower title) mappings with _ | c
  · have hm : map_to_risk_category title = "Software Engineer" := by
      unfold map_to_risk_category
      rw [h]
    rw [hm]
    exact ⟨_, rfl, calc_of_some _ _ rfl⟩
  · have hc := first_match_mem h
    have hm : map_to_risk_category title = c := by
      unfold map_to_risk_category
      rw [h]
    rw [hm]
    simp only [mappings, List.map_cons, List.map_nil, List.mem_cons,
      List.not_mem_nil, or_false] at hc
    rcases hc with rfl | rfl | rfl | rfl | rfl | rfl | rfl | rfl | rfl | rfl | rfl | rfl <;>
      exact ⟨_, rfl, calc_of_some _ _ rfl⟩

end WorkShiftAI
